import Mathlib

/-!
Verification of the NetSocialOSS/CLI-Tools migration utilities.

The development shallowly embeds the two migration programs:

* `cli-tools/mongo/botstructconv.go` — reads legacy `OriginalBot` documents
  from a MongoDB collection, transforms each with `transformDocument`, and
  inserts the result into a second collection, spawning one goroutine per
  decoded document.
* `mongo/mongotomysql.go` — transfers five MongoDB collections into
  PostgreSQL tables, with a check-then-insert existence test per record.

Go structs become Lean structures, `interface{}`-typed fields become
explicit sum types, fallible operations return `Except`, and the stateful
loops become folds over explicit state.  Machine `int` is modelled as `Int`
(no arithmetic in the programs can overflow-wrap observable state).
-/

/-- The dynamically typed element of a legacy `votes` list
    (an entry of the `[]interface{}` case in `transformDocument`):
    either an `int`, or a value of any other runtime type. -/
inductive VotesElem where
  | int (n : Int)
  | other
deriving DecidableEq, Repr

/-- The `Votes interface{}` field of `OriginalBot` (botstructconv.go line 37):
    at runtime it is an `int`, a `[]interface{}` list, or some other type. -/
inductive VotesValue where
  | int (n : Int)
  | list (xs : List VotesElem)
  | other
deriving DecidableEq, Repr

/-- `OriginalBot` (botstructconv.go lines 16-39), the legacy document shape.
    The Go field `Prefix` is called `pref` here; `AltBotID` carries the
    alternative bson name of the bot id field. -/
structure OriginalBot where
  ownerID : String
  ownerName : String
  botID : String
  altBotID : String
  username : String
  discrim : String
  avatar : String
  pref : String
  invite : String
  longDesc : String
  shortDesc : String
  tags : List String
  uptimerate : Int
  coowners : List String
  premium : String
  status : String
  website : String
  github : String
  support : String
  certificate : String
  votes : VotesValue
  token : String
deriving DecidableEq, Repr

/-- `Bots` (botstructconv.go lines 42-65), the transformed document shape.
    The Go field `Prefix` is called `pref` here. -/
structure Bots where
  id : String
  name : String
  discriminator : String
  website : String
  github : String
  avatar : String
  tags : List String
  votes : Int
  reviews : List String
  shortdesc : String
  staff : String
  pref : String
  longdesc : String
  token : String
  support : String
  ownerAvatar : String
  ownerName : String
  analytics : String
  publicity : String
  featured : Bool
  approved : Bool
  reviewing : Bool
deriving DecidableEq, Repr

/-- The `switch v := doc.Votes.(type)` block of `transformDocument`
    (botstructconv.go lines 193-203): an `int` is used directly; for a
    `[]interface{}`, the first element is used when it is an `int`;
    in every other case `votes` keeps its zero value. -/
def votesOf : VotesValue → Int
  | VotesValue.int n => n
  | VotesValue.list (VotesElem.int n :: _) => n
  | VotesValue.list _ => 0
  | VotesValue.other => 0

/-- The error message produced by `transformDocument` when essential
    fields are empty (botstructconv.go line 183). -/
def essentialErr (doc : OriginalBot) : String :=
  "essential fields are empty for document with BotID: " ++ doc.botID

/-- The guard of `transformDocument` (botstructconv.go line 182):
    `doc.BotID == "" && doc.AltBotID == "" || doc.Username == "" || doc.Discrim == ""`
    with Go precedence, where `&&` binds tighter than `||`. -/
def essentialEmpty (doc : OriginalBot) : Prop :=
  (doc.botID = "" ∧ doc.altBotID = "") ∨ doc.username = "" ∨ doc.discrim = ""

instance (doc : OriginalBot) : Decidable (essentialEmpty doc) := by
  unfold essentialEmpty; infer_instance

/-- The `Bots` literal returned by `transformDocument`
    (botstructconv.go lines 186-227).  The `id` is `doc.BotID`, replaced by
    `doc.AltBotID` when `doc.BotID` is empty; `Staff` is never assigned in
    the Go return statement and therefore keeps its zero value. -/
def canonicalOf (doc : OriginalBot) : Bots :=
  { id := if doc.botID = "" then doc.altBotID else doc.botID
    name := doc.username
    discriminator := doc.discrim
    website := doc.website
    github := doc.github
    avatar := doc.avatar
    tags := doc.tags
    votes := votesOf doc.votes
    reviews := []
    shortdesc := doc.shortDesc
    staff := ""
    pref := doc.pref
    longdesc := doc.longDesc
    token := ""
    support := doc.support
    ownerAvatar := ""
    ownerName := doc.ownerName
    analytics := ""
    publicity := "public"
    featured := false
    approved := true
    reviewing := false }

/-- `transformDocument` (botstructconv.go lines 180-228). -/
def transformDocument (doc : OriginalBot) : Except String Bots :=
  if essentialEmpty doc then Except.error (essentialErr doc)
  else Except.ok (canonicalOf doc)

lemma transformDocument_ok_of {doc : OriginalBot} (h : ¬ essentialEmpty doc) :
    transformDocument doc = Except.ok (canonicalOf doc) := by
  simp [transformDocument, h]

lemma canonicalOf_of_ok {doc : OriginalBot} {b : Bots}
    (h : transformDocument doc = Except.ok b) : b = canonicalOf doc := by
  by_cases hc : essentialEmpty doc
  · simp [transformDocument, hc] at h
  · simp [transformDocument, hc] at h
    exact h.symm

/-- A legacy document whose `botID` field takes the concrete value `i`
    and whose other required fields are populated. -/
def mkDoc (i : String) : OriginalBot :=
  { ownerID := ""
    ownerName := "owner"
    botID := i
    altBotID := ""
    username := "user"
    discrim := "0001"
    avatar := ""
    pref := "!"
    invite := ""
    longDesc := ""
    shortDesc := ""
    tags := []
    uptimerate := 0
    coowners := []
    premium := ""
    status := ""
    website := ""
    github := ""
    support := ""
    certificate := ""
    votes := VotesValue.int 0
    token := "tok" }

/-- A document in which only the alternative bot-id field is populated. -/
def aliasDoc : OriginalBot :=
  { mkDoc "" with altBotID := "alias-123" }

/-- A document in which all required-field aliases are empty. -/
def emptyDoc : OriginalBot :=
  { mkDoc "" with username := "", discrim := "" }

/-- A document whose `votes` field is the single-element list containing 7. -/
def votesDoc7 : OriginalBot :=
  { mkDoc "b7" with votes := VotesValue.list [VotesElem.int 7] }

/-- Claim C2: a `RawRecord` with a non-empty value in at least one alias of
    each required field (bot id via `botID` or `altBotID`, username,
    discriminator) transforms successfully into a record whose required
    fields are non-empty; a record whose required-field aliases are all
    empty fails with a transform error and no partial record is emitted. -/
theorem claim_C2_required_fields :
    (∀ doc : OriginalBot,
        (doc.botID ≠ "" ∨ doc.altBotID ≠ "") → doc.username ≠ "" → doc.discrim ≠ "" →
        transformDocument doc = Except.ok (canonicalOf doc)
        ∧ (canonicalOf doc).id ≠ "" ∧ (canonicalOf doc).name ≠ ""
        ∧ (canonicalOf doc).discriminator ≠ "")
    ∧ (∀ doc : OriginalBot,
        doc.botID = "" → doc.altBotID = "" → doc.username = "" → doc.discrim = "" →
        transformDocument doc = Except.error (essentialErr doc)) := by
  constructor
  · intro doc hid huser hdiscrim
    have hne : ¬ essentialEmpty doc := by
      unfold essentialEmpty
      push_neg
      refine ⟨fun hb => ?_, huser, hdiscrim⟩
      rcases hid with h | h
      · exact absurd hb h
      · intro hab; exact h hab
    refine ⟨transformDocument_ok_of hne, ?_, huser, hdiscrim⟩
    show (if doc.botID = "" then doc.altBotID else doc.botID) ≠ ""
    split
    · rcases hid with h | h
      · exact absurd (by assumption) h
      · exact h
    · assumption
  · intro doc h1 h2 h3 h4
    unfold transformDocument
    rw [if_pos (show essentialEmpty doc from Or.inl ⟨h1, h2⟩)]

/-- Witness for claim C2 at two concrete documents. -/
theorem claim_C2_required_fields_witness :
    (transformDocument aliasDoc = Except.ok (canonicalOf aliasDoc)
      ∧ (canonicalOf aliasDoc).id ≠ "" ∧ (canonicalOf aliasDoc).name ≠ ""
      ∧ (canonicalOf aliasDoc).discriminator ≠ "")
    ∧ transformDocument emptyDoc = Except.error (essentialErr emptyDoc) :=
  ⟨claim_C2_required_fields.1 aliasDoc (Or.inr (by decide)) (by decide) (by decide),
   claim_C2_required_fields.2 emptyDoc rfl rfl rfl rfl⟩

/-- Claim C4: the heterogeneous `votes` field is used directly when it is an
    `int` scalar; the first element of a non-empty list is used when it is an
    `int`; otherwise — empty list, list with a first element of another type,
    or a non-list value of another type — `votes` defaults to 0, and the
    `votes` handling never produces an error. -/
theorem claim_C4_votes_field :
    (∀ (doc : OriginalBot) (b : Bots),
        transformDocument doc = Except.ok b → b.votes = votesOf doc.votes)
    ∧ (∀ n : Int, votesOf (VotesValue.int n) = n)
    ∧ (∀ (n : Int) (rest : List VotesElem),
        votesOf (VotesValue.list (VotesElem.int n :: rest)) = n)
    ∧ (∀ rest : List VotesElem,
        votesOf (VotesValue.list (VotesElem.other :: rest)) = 0)
    ∧ votesOf (VotesValue.list []) = 0
    ∧ votesOf VotesValue.other = 0 := by
  refine ⟨?_, fun n => rfl, fun n rest => rfl, fun rest => rfl, rfl, rfl⟩
  intro doc b h
  rw [canonicalOf_of_ok h]
  rfl

/-- Witness for claim C4: a `votes` field holding the single-element list
    containing 7 yields `votes = 7`, and an empty list yields `votes = 0`. -/
theorem claim_C4_votes_field_witness :
    transformDocument votesDoc7 = Except.ok (canonicalOf votesDoc7)
    ∧ (canonicalOf votesDoc7).votes = votesOf votesDoc7.votes
    ∧ votesOf votesDoc7.votes = 7
    ∧ votesOf (VotesValue.list []) = 0 :=
  ⟨rfl, claim_C4_votes_field.1 votesDoc7 (canonicalOf votesDoc7) rfl, rfl,
   claim_C4_votes_field.2.2.2.2.1⟩

/-- Claim C5: for every accepted record the canonical identifier is the
    primary `botID` when that field is non-empty, and exactly the alias
    `altBotID` value when the primary is empty. -/
theorem claim_C5_alias_id (doc : OriginalBot) (b : Bots)
    (h : transformDocument doc = Except.ok b) :
    b.id = if doc.botID = "" then doc.altBotID else doc.botID := by
  rw [canonicalOf_of_ok h]
  rfl

/-- Witness for claim C5 at a record with only the alias field populated. -/
theorem claim_C5_alias_id_witness :
    transformDocument aliasDoc = Except.ok (canonicalOf aliasDoc)
    ∧ (canonicalOf aliasDoc).id
        = (if aliasDoc.botID = "" then aliasDoc.altBotID else aliasDoc.botID)
    ∧ (canonicalOf aliasDoc).id = "alias-123" :=
  ⟨rfl, claim_C5_alias_id aliasDoc (canonicalOf aliasDoc) rfl, by decide⟩

/-- Claim C9: the legacy bot token is never copied: every transformed record
    has an empty `token`, and the transform result is invariant under any
    change of the source document's `token` field. -/
theorem claim_C9_token_dropped :
    (∀ (doc : OriginalBot) (b : Bots),
        transformDocument doc = Except.ok b → b.token = "")
    ∧ (∀ (doc : OriginalBot) (t : String),
        transformDocument { doc with token := t } = transformDocument doc) := by
  constructor
  · intro doc b h
    rw [canonicalOf_of_ok h]
    rfl
  · intro doc t
    cases doc
    rfl

/-- Witness for claim C9: the sample document carries token `tok`, yet the
    output token is empty, and replacing the token does not change the output. -/
theorem claim_C9_token_dropped_witness :
    (mkDoc "b1").token = "tok"
    ∧ transformDocument (mkDoc "b1") = Except.ok (canonicalOf (mkDoc "b1"))
    ∧ (canonicalOf (mkDoc "b1")).token = ""
    ∧ transformDocument { mkDoc "b1" with token := "secret" }
        = transformDocument (mkDoc "b1") :=
  ⟨rfl, rfl, claim_C9_token_dropped.1 (mkDoc "b1") (canonicalOf (mkDoc "b1")) rfl,
   claim_C9_token_dropped.2 (mkDoc "b1") "secret"⟩

/-- Claim C10: every transformed record is unconditionally marked approved,
    not featured, not reviewing, with empty reviews, publicity `public`,
    and empty owner avatar and analytics, independently of the source. -/
theorem claim_C10_fixed_defaults (doc : OriginalBot) (b : Bots)
    (h : transformDocument doc = Except.ok b) :
    b.approved = true ∧ b.featured = false ∧ b.reviewing = false
    ∧ b.reviews = [] ∧ b.publicity = "public"
    ∧ b.ownerAvatar = "" ∧ b.analytics = "" := by
  rw [canonicalOf_of_ok h]
  exact ⟨rfl, rfl, rfl, rfl, rfl, rfl, rfl⟩

/-- Witness for claim C10 at a concrete accepted document. -/
theorem claim_C10_fixed_defaults_witness :
    transformDocument (mkDoc "b1") = Except.ok (canonicalOf (mkDoc "b1"))
    ∧ ((canonicalOf (mkDoc "b1")).approved = true
      ∧ (canonicalOf (mkDoc "b1")).featured = false
      ∧ (canonicalOf (mkDoc "b1")).reviewing = false
      ∧ (canonicalOf (mkDoc "b1")).reviews = []
      ∧ (canonicalOf (mkDoc "b1")).publicity = "public"
      ∧ (canonicalOf (mkDoc "b1")).ownerAvatar = ""
      ∧ (canonicalOf (mkDoc "b1")).analytics = "") :=
  ⟨rfl, claim_C10_fixed_defaults (mkDoc "b1") (canonicalOf (mkDoc "b1")) rfl⟩

/-- The kind of result a single source record produces during a run
    (spec section 3; the constructors mirror the code paths of the
    per-record pipeline, with `skippedExisting` reserved for
    existence-check skips). -/
inductive Outcome where
  | transformed
  | skippedExisting
  | decodeError
  | transformError
  | writeError
deriving DecidableEq, Repr

/-- One entry of the error log of botstructconv.go: the three
    `fmt.Errorf` messages sent on `errCh` (lines 117, 131, 139),
    distinguished by their fixed message text. -/
inductive LogMsg where
  | decodeError (e : String)
  | transformError (e : String)
  | insertError (e : String)
deriving DecidableEq, Repr

/-- The observable state accumulated by the botstructconv.go `main` loop:
    the destination collection `transformedbots` (`dest`), the
    `processedDocs` counter, the messages logged from `errCh`, and the
    per-record outcomes in source order.  The per-record goroutines only
    append to the collection, increment the counter, and send on `errCh`,
    so the run's final state is interleaving-independent; it is modelled as
    a sequential fold.  (The Go counter increment itself is unsynchronized
    — a data race the spec's design notes flag — which is modelled here by
    its intended effect.) -/
structure BotsRunState where
  dest : List Bots
  processedDocs : Nat
  loggedErrors : List LogMsg
  outcomes : List Outcome
deriving DecidableEq, Repr

/-- One iteration of the botstructconv.go loop (lines 113-147) for one
    source item: a decode failure is logged and skipped; otherwise the
    document is transformed and, on success, unconditionally inserted into
    the destination collection — there is no existence check before
    `InsertOne` (line 137).  `insertOk` models whether the destination
    accepts the insert. -/
def botsStep (insertOk : Bots → Bool) (st : BotsRunState)
    (item : Except String OriginalBot) : BotsRunState :=
  match item with
  | Except.error e =>
      { st with loggedErrors := st.loggedErrors ++ [LogMsg.decodeError e]
                outcomes := st.outcomes ++ [Outcome.decodeError] }
  | Except.ok doc =>
      match transformDocument doc with
      | Except.error e =>
          { st with loggedErrors := st.loggedErrors ++ [LogMsg.transformError e]
                    outcomes := st.outcomes ++ [Outcome.transformError] }
      | Except.ok b =>
          if insertOk b then
            { st with dest := st.dest ++ [b]
                      processedDocs := st.processedDocs + 1
                      outcomes := st.outcomes ++ [Outcome.transformed] }
          else
            { st with loggedErrors := st.loggedErrors ++ [LogMsg.insertError b.id]
                      outcomes := st.outcomes ++ [Outcome.writeError] }

/-- The botstructconv.go run starting from a given destination-collection
    state (the collection contents persist between invocations of the
    tool). -/
def botsRunFrom (insertOk : Bots → Bool) (dest : List Bots)
    (src : List (Except String OriginalBot)) : BotsRunState :=
  src.foldl (botsStep insertOk) ⟨dest, 0, [], []⟩

/-- A botstructconv.go run against an initially empty destination. -/
def botsRun (insertOk : Bots → Bool)
    (src : List (Except String OriginalBot)) : BotsRunState :=
  botsRunFrom insertOk [] src

/-- The summary line printed at botstructconv.go line 176, as a function of
    the final `processedDocs` count and the rendered elapsed seconds. -/
def summaryLine (processed : Nat) (secs : String) : String :=
  "Conversion done. Processed " ++ toString processed ++ " documents in "
    ++ secs ++ " seconds."

/-- The process exit status of botstructconv.go after the loop: `log.Fatal`
    (status 1) only when the cursor reports an error (line 166), otherwise
    normal termination with status 0 — per-record failures never change it. -/
def botsExitCode (cursorErr : Option String) : Nat :=
  match cursorErr with
  | some _ => 1
  | none => 0

/-- Number of occurrences of one outcome kind in an outcome list. -/
def outcomeCount (o : Outcome) : List Outcome → Nat
  | [] => 0
  | x :: xs => (if x = o then 1 else 0) + outcomeCount o xs

lemma outcomeCount_append (o : Outcome) (l1 l2 : List Outcome) :
    outcomeCount o (l1 ++ l2) = outcomeCount o l1 + outcomeCount o l2 := by
  induction l1 with
  | nil => simp [outcomeCount]
  | cons x xs ih => simp [outcomeCount, ih]; omega

/-- Whether a source item decodes and transforms successfully
    (the condition under which the botstructconv.go loop reaches
    `InsertOne` for that item). -/
def transformsOk : Except String OriginalBot → Bool
  | Except.error _ => false
  | Except.ok d =>
      match transformDocument d with
      | Except.ok _ => true
      | Except.error _ => false

lemma botsStep_dest_length (st : BotsRunState) (item : Except String OriginalBot) :
    ((botsStep (fun _ => true) st item).dest).length
      = st.dest.length + (if transformsOk item then 1 else 0) := by
  cases item with
  | error e => simp [botsStep, transformsOk]
  | ok doc =>
      cases h : transformDocument doc with
      | error e => simp [botsStep, transformsOk, h]
      | ok b => simp [botsStep, transformsOk, h]

lemma botsFold_dest_length (src : List (Except String OriginalBot)) :
    ∀ st : BotsRunState,
      ((src.foldl (botsStep (fun _ => true)) st).dest).length
        = st.dest.length + (src.filter transformsOk).length := by
  induction src with
  | nil => intro st; simp
  | cons item rest ih =>
      intro st
      rw [List.foldl_cons, ih (botsStep (fun _ => true) st item),
        botsStep_dest_length st item, List.filter_cons]
      by_cases h : transformsOk item
      · simp [h]; omega
      · simp [h]

lemma botsStep_outcomes_length (insertOk : Bots → Bool) (st : BotsRunState)
    (item : Except String OriginalBot) :
    ((botsStep insertOk st item).outcomes).length = st.outcomes.length + 1 := by
  cases item with
  | error e => simp [botsStep]
  | ok doc =>
      cases h : transformDocument doc with
      | error e => simp [botsStep, h]
      | ok b =>
          by_cases hb : insertOk b
          · simp [botsStep, h, hb]
          · simp [botsStep, h, hb]

lemma botsFold_outcomes_length (insertOk : Bots → Bool)
    (src : List (Except String OriginalBot)) :
    ∀ st : BotsRunState,
      ((src.foldl (botsStep insertOk) st).outcomes).length
        = st.outcomes.length + src.length := by
  induction src with
  | nil => intro st; simp
  | cons item rest ih =>
      intro st
      rw [List.foldl_cons, ih (botsStep insertOk st item),
        botsStep_outcomes_length insertOk st item]
      simp; omega

lemma botsStep_processed_count (insertOk : Bots → Bool) (st : BotsRunState)
    (item : Except String OriginalBot) :
    (botsStep insertOk st item).processedDocs
        + outcomeCount Outcome.transformed st.outcomes
      = st.processedDocs
        + outcomeCount Outcome.transformed (botsStep insertOk st item).outcomes := by
  cases item with
  | error e => simp [botsStep, outcomeCount_append, outcomeCount]
  | ok doc =>
      cases h : transformDocument doc with
      | error e => simp [botsStep, h, outcomeCount_append, outcomeCount]
      | ok b =>
          by_cases hb : insertOk b
          · simp [botsStep, h, hb, outcomeCount_append, outcomeCount]; omega
          · simp [botsStep, h, hb, outcomeCount_append, outcomeCount]

lemma botsFold_processed_count (insertOk : Bots → Bool)
    (src : List (Except String OriginalBot)) :
    ∀ st : BotsRunState,
      (src.foldl (botsStep insertOk) st).processedDocs
          + outcomeCount Outcome.transformed st.outcomes
        = st.processedDocs
          + outcomeCount Outcome.transformed
              ((src.foldl (botsStep insertOk) st).outcomes) := by
  induction src with
  | nil => intro st; rfl
  | cons item rest ih =>
      intro st
      rw [List.foldl_cons]
      have h1 := ih (botsStep insertOk st item)
      have h2 := botsStep_processed_count insertOk st item
      omega

/-- The anonymous user struct decoded by `transferUsers`
    (mongotomysql.go lines 267-287).  `time.Time` is modelled as an
    integer timestamp.  The `INSERT` at lines 302-304 copies these
    nineteen fields verbatim into the `"User"` table, so the same record
    type doubles as the destination row. -/
structure MUser where
  id : String
  username : String
  displayName : String
  userID : Int
  email : String
  createdAt : Int
  profilePicture : String
  profileBanner : String
  bio : String
  isVerified : Bool
  isOrganisation : Bool
  isDeveloper : Bool
  isPartner : Bool
  isOwner : Bool
  isBanned : Bool
  password : String
  links : List String
  followers : List String
  following : List String

/-- One iteration of the `transferUsers` loop (mongotomysql.go
    lines 292-307) on the failure-free path: query the destination for a
    row with the user's email (`SELECT id FROM "User" WHERE email = $1`);
    when one exists, skip; otherwise insert the row. -/
def usersStep (dest : List MUser) (u : MUser) : List MUser :=
  if dest.any (fun r => r.email == u.email) then dest else dest ++ [u]

/-- `transferUsers` over a decoded source, on the failure-free path
    (decode, existence-check and insert errors abort the loop and are
    treated under claim C3). -/
def transferUsersModel (dest : List MUser) (src : List MUser) : List MUser :=
  src.foldl usersStep dest

lemma usersStep_any_mono (p : MUser → Bool) (d : List MUser) (u : MUser)
    (h : d.any p = true) : (usersStep d u).any p = true := by
  unfold usersStep
  split
  · exact h
  · simp [List.any_append, h]

lemma transferUsersModel_any_mono (p : MUser → Bool) (s : List MUser) :
    ∀ d : List MUser, d.any p = true → (transferUsersModel d s).any p = true := by
  induction s with
  | nil => intro d h; simpa [transferUsersModel] using h
  | cons v rest ih =>
      intro d h
      have : transferUsersModel d (v :: rest) = transferUsersModel (usersStep d v) rest := rfl
      rw [this]
      exact ih (usersStep d v) (usersStep_any_mono p d v h)

lemma transferUsersModel_mem_email (s : List MUser) :
    ∀ (d : List MUser) (u : MUser), u ∈ s →
      (transferUsersModel d s).any (fun r => r.email == u.email) = true := by
  induction s with
  | nil => intro d u h; cases h
  | cons v rest ih =>
      intro d u h
      have hstep : transferUsersModel d (v :: rest) = transferUsersModel (usersStep d v) rest := rfl
      rw [hstep]
      rcases List.mem_cons.mp h with h | h
      · subst h
        apply transferUsersModel_any_mono
        unfold usersStep
        split
        · assumption
        · simp [List.any_append]
      · exact ih (usersStep d v) u h

lemma transferUsersModel_skip_all (s : List MUser) :
    ∀ D : List MUser,
      (∀ u ∈ s, D.any (fun r => r.email == u.email) = true) →
      transferUsersModel D s = D := by
  induction s with
  | nil => intro D _; rfl
  | cons v rest ih =>
      intro D h
      have hv : usersStep D v = D := by
        unfold usersStep
        rw [if_pos (h v (List.mem_cons_self v rest))]
      have hstep : transferUsersModel D (v :: rest) = transferUsersModel (usersStep D v) rest := rfl
      rw [hstep, hv]
      exact ih D (fun u hu => h u (List.mem_cons_of_mem v hu))

/-- Claim C1, amended.  First part: the mongo-to-postgres transfer queries
    the destination by natural key (email) before writing and skips
    existing rows, so a second run of the same source against the
    resulting destination inserts nothing.  Second part: the bot-struct
    conversion tool performs no existence check — every record that
    decodes and transforms successfully is appended to the destination
    regardless of what the destination already holds, so each rerun adds
    one fresh copy per such record. -/
theorem claim_C1_idempotency :
    (∀ (d : List MUser) (s : List MUser),
        transferUsersModel (transferUsersModel d s) s = transferUsersModel d s)
    ∧ (∀ (dest : List Bots) (src : List (Except String OriginalBot)),
        ((botsRunFrom (fun _ => true) dest src).dest).length
          = dest.length + (src.filter transformsOk).length) := by
  constructor
  · intro d s
    exact transferUsersModel_skip_all s (transferUsersModel d s)
      (fun u hu => transferUsersModel_mem_email s d u hu)
  · intro dest src
    exact botsFold_dest_length src ⟨dest, 0, [], []⟩

/-- The single-record source used to exhibit the duplication. -/
def srcOne : List (Except String OriginalBot) :=
  [Except.ok (mkDoc "b1")]

/-- Counterexample to claim C1 as stated: in botstructconv.go the
    destination is never queried before writing, so re-running the
    pipeline against the same source duplicates the record — the second
    run adds one net new record instead of zero and emits a `transformed`
    outcome, not `skippedExisting`. -/
theorem claim_C1_counterexample :
    (botsRun (fun _ => true) srcOne).dest.length = 1
    ∧ ((botsRunFrom (fun _ => true) (botsRun (fun _ => true) srcOne).dest srcOne).dest).length = 2
    ∧ ¬ (((botsRunFrom (fun _ => true) (botsRun (fun _ => true) srcOne).dest srcOne).dest).length
          = (botsRun (fun _ => true) srcOne).dest.length)
    ∧ (botsRunFrom (fun _ => true) (botsRun (fun _ => true) srcOne).dest srcOne).outcomes
        = [Outcome.transformed] := by
  decide

/-- One element of the nested `content` array of a blog-post document
    (mongotomysql.go lines 180-182). -/
structure BlogContent where
  body : String
deriving DecidableEq, Repr

/-- The anonymous blog-post struct decoded by `transferBlogPosts`
    (mongotomysql.go lines 173-183). -/
structure BlogPost where
  slug : String
  title : String
  date : String
  authorName : String
  overview : String
  authorAvatar : String
  content : List BlogContent
deriving DecidableEq, Repr

/-- The `contentStrings` flattening of `transferBlogPosts`
    (mongotomysql.go lines 205-208): the nested content blocks are
    collapsed into a plain list of their bodies. -/
def contentStrings (p : BlogPost) : List String :=
  p.content.map BlogContent.body

/-- A parameterized SQL statement issued by the blog-post write path.
    The single constructor mirrors the single `INSERT INTO BlogPost`
    at mongotomysql.go line 210, whose seventh parameter is the flattened
    content array. -/
inductive PgStmt where
  | insertBlogPost (slug title : String) (date : Int)
      (authorName overview authorAvatar : String) (content : List String)
deriving DecidableEq, Repr

/-- The statements executed to write one blog-post record
    (mongotomysql.go lines 210-211): exactly one `Exec` call. -/
def blogPostWriteStmts (date : Int) (p : BlogPost) : List PgStmt :=
  [PgStmt.insertBlogPost p.slug p.title date p.authorName p.overview
    p.authorAvatar (contentStrings p)]

/-- A row of the `BlogPost` table (mongotomysql.go lines 63-72); the
    `content TEXT[]` column holds the flattened block bodies. -/
structure BlogRow where
  slug : String
  title : String
  date : Int
  authorName : String
  overview : String
  authorAvatar : String
  content : List String
deriving DecidableEq, Repr

/-- The row inserted for one blog post. -/
def blogRowOf (date : Int) (p : BlogPost) : BlogRow :=
  { slug := p.slug
    title := p.title
    date := date
    authorName := p.authorName
    overview := p.overview
    authorAvatar := p.authorAvatar
    content := contentStrings p }

/-- `transferBlogPosts` (mongotomysql.go lines 165-218) over a decoded
    source: a decode failure (`cursor.Decode`, line 184-186) or a date
    parse failure (lines 189-192) makes the function return the error
    immediately, abandoning all remaining records; otherwise the record is
    skipped when a row with its slug exists and inserted when not.
    `parse` models `time.Parse("January 02, 2006", ...)`. -/
def transferBlogPostsRun (parse : String → Except String Int)
    (dest : List BlogRow) :
    List (Except String BlogPost) → Except String (List BlogRow)
  | [] => Except.ok dest
  | Except.error e :: _ => Except.error e
  | Except.ok p :: rest =>
      match parse p.date with
      | Except.error e =>
          Except.error ("error parsing date " ++ p.date ++ ": " ++ e)
      | Except.ok d =>
          if dest.any (fun r => r.slug == p.slug) then
            transferBlogPostsRun parse dest rest
          else
            transferBlogPostsRun parse (dest ++ [blogRowOf d p]) rest

/-- A date parser that accepts every date, for exercising the other
    failure modes. -/
def alwaysDate : String → Except String Int := fun _ => Except.ok 0

/-- A well-formed blog post used in the counterexamples. -/
def goodPost : BlogPost :=
  { slug := "good"
    title := "t"
    date := "January 02, 2006"
    authorName := "a"
    overview := "o"
    authorAvatar := "av"
    content := [⟨"body"⟩] }

/-- Claim C3, amended.  First part: in botstructconv.go every source
    record — including those whose decode, transform or insert fails —
    yields exactly one outcome and iteration continues, so the run
    completes over the whole source.  Second part: in mongotomysql.go a
    single record's decode failure makes the transfer function return
    immediately, terminating that collection's sequence with all remaining
    records unprocessed (the coordinator then logs the failure and moves
    to the next collection). -/
theorem claim_C3_per_record_errors :
    (∀ (insertOk : Bots → Bool) (src : List (Except String OriginalBot)),
        ((botsRun insertOk src).outcomes).length = src.length)
    ∧ (∀ (parse : String → Except String Int) (dest : List BlogRow)
        (e : String) (rest : List (Except String BlogPost)),
        transferBlogPostsRun parse dest (Except.error e :: rest) = Except.error e) := by
  constructor
  · intro insertOk src
    have h := botsFold_outcomes_length insertOk src ⟨[], 0, [], []⟩
    simpa [botsRun, botsRunFrom] using h
  · intro parse dest e rest
    rfl

/-- Counterexample to claim C3 as stated: in `transferBlogPosts` a decode
    failure on the first record terminates the whole sequence — the second
    record, which alone would be transferred successfully, is never
    written. -/
theorem claim_C3_counterexample :
    transferBlogPostsRun alwaysDate []
        [Except.error "decode failure", Except.ok goodPost]
      = Except.error "decode failure"
    ∧ transferBlogPostsRun alwaysDate [] [Except.ok goodPost]
      = Except.ok [blogRowOf 0 goodPost] := by
  exact ⟨rfl, rfl⟩

/-- Claim C6, amended: every blog-post record is written with exactly one
    parameterized insert statement; the nested content blocks are
    flattened into a single array parameter of that statement instead of
    being inserted as separate child rows. -/
theorem claim_C6_single_insert (date : Int) (p : BlogPost) :
    (blogPostWriteStmts date p).length = 1
    ∧ blogPostWriteStmts date p
      = [PgStmt.insertBlogPost p.slug p.title date p.authorName p.overview
          p.authorAvatar (p.content.map BlogContent.body)]
    ∧ (blogRowOf date p).content = p.content.map BlogContent.body := by
  exact ⟨rfl, rfl, rfl⟩

/-- A blog post with two nested content blocks. -/
def twoBlockPost : BlogPost :=
  { slug := "s"
    title := "t"
    date := "January 02, 2006"
    authorName := "a"
    overview := "o"
    authorAvatar := "av"
    content := [⟨"block1"⟩, ⟨"block2"⟩] }

/-- Counterexample to claim C6 as stated: a record with two nested content
    blocks is written with one insert statement, not with one insert for
    the record plus one per content block. -/
theorem claim_C6_counterexample :
    twoBlockPost.content.length = 2
    ∧ (blogPostWriteStmts 0 twoBlockPost).length = 1
    ∧ ¬ ((blogPostWriteStmts 0 twoBlockPost).length
          = 1 + twoBlockPost.content.length) := by
  decide

/-- A batch of ten source records in which record 5 fails to decode and
    the others decode into valid documents. -/
def batch10 : List (Except String OriginalBot) :=
  [Except.ok (mkDoc "b1"), Except.ok (mkDoc "b2"), Except.ok (mkDoc "b3"),
   Except.ok (mkDoc "b4"), Except.error "malformed document",
   Except.ok (mkDoc "b6"), Except.ok (mkDoc "b7"), Except.ok (mkDoc "b8"),
   Except.ok (mkDoc "b9"), Except.ok (mkDoc "b10")]

/-- A destination that rejects the insert of record `b8` (a write
    constraint failure) and accepts every other record. -/
def insertOk10 : Bots → Bool := fun b => !(b.id == "b8")

/-- Claim C7: the printed count equals the number of `transformed`
    outcomes; the exit status is 0 when the cursor reports no error,
    regardless of per-record failures; and on the ten-record batch with
    one decode failure and one write failure the run reports 8
    transformed, 1 decode error and 1 write error, prints
    `Conversion done. Processed 8 documents in <T> seconds.`, and exits
    with status 0. -/
theorem claim_C7_summary_exit :
    (∀ (insertOk : Bots → Bool) (src : List (Except String OriginalBot)),
        (botsRun insertOk src).processedDocs
          = outcomeCount Outcome.transformed (botsRun insertOk src).outcomes)
    ∧ botsExitCode none = 0
    ∧ outcomeCount Outcome.transformed (botsRun insertOk10 batch10).outcomes = 8
    ∧ outcomeCount Outcome.decodeError (botsRun insertOk10 batch10).outcomes = 1
    ∧ outcomeCount Outcome.writeError (botsRun insertOk10 batch10).outcomes = 1
    ∧ (botsRun insertOk10 batch10).loggedErrors
        = [LogMsg.decodeError "malformed document", LogMsg.insertError "b8"]
    ∧ summaryLine (botsRun insertOk10 batch10).processedDocs "0.51"
        = "Conversion done. Processed 8 documents in 0.51 seconds." := by
  refine ⟨?_, rfl, by decide, by decide, by decide, by decide, by decide⟩
  intro insertOk src
  have h := botsFold_processed_count insertOk src ⟨[], 0, [], []⟩
  simpa [botsRun, botsRunFrom, outcomeCount] using h

/-- An event of the botstructconv.go worker pool: `spawn` is the
    `wg.Add(1)` + `go func` pair the main loop executes for each decoded
    record (lines 122-125); `finish` is a worker's `wg.Done` (line 126). -/
inductive PoolEvent where
  | spawn
  | finish
deriving DecidableEq, Repr

/-- Number of records for which the main loop spawns a goroutine: one per
    record that `cur.Decode` accepts (decode failures `continue` before
    `wg.Add`, line 118). -/
def spawnTotal (src : List (Except String OriginalBot)) : Nat :=
  (src.filter (fun item => match item with
    | Except.ok _ => true
    | Except.error _ => false)).length

/-- Replays an event schedule against the code's only synchronization
    structure: the loop spawns at most `spawnsLeft` goroutines in source
    order and never waits for workers before the loop ends (`wg.Wait`
    runs only after the loop, line 151), and a worker can finish at any
    time after its spawn.  Returns the high-water mark of concurrently
    in-flight record pipelines for a complete run (all spawns executed,
    all workers finished), and `none` for an inconsistent schedule. -/
def schedMaxAux : Nat → Nat → Nat → List PoolEvent → Option Nat
  | spawnsLeft, inflight, hi, [] =>
      if spawnsLeft = 0 ∧ inflight = 0 then some hi else none
  | spawnsLeft, inflight, hi, PoolEvent.spawn :: es =>
      match spawnsLeft with
      | 0 => none
      | Nat.succ s => schedMaxAux s (inflight + 1) (max hi (inflight + 1)) es
  | spawnsLeft, inflight, hi, PoolEvent.finish :: es =>
      match inflight with
      | 0 => none
      | Nat.succ f => schedMaxAux spawnsLeft f hi es

/-- High-water mark of in-flight pipelines for a run with `n` decoded
    records under the given event schedule. -/
def schedMax (n : Nat) (es : List PoolEvent) : Option Nat :=
  schedMaxAux n 0 0 es

/-- The schedule in which the source loop finishes before any worker
    does: all spawns, then all finishes.  Nothing in the code prevents it:
    the loop performs no blocking operation on the workers. -/
def burst (n : Nat) : List PoolEvent :=
  List.replicate n PoolEvent.spawn ++ List.replicate n PoolEvent.finish

lemma schedMaxAux_spawns (n : Nat) :
    ∀ (s f hi : Nat) (es : List PoolEvent), f ≤ hi →
      schedMaxAux (n + s) f hi (List.replicate n PoolEvent.spawn ++ es)
        = schedMaxAux s (f + n) (max hi (f + n)) es := by
  induction n with
  | zero =>
      intro s f hi es h
      simp [Nat.max_eq_left h, max_eq_left h]
  | succ m ih =>
      intro s f hi es h
      have harith : m + 1 + s = (m + s) + 1 := by omega
      rw [harith, List.replicate_succ, List.cons_append]
      show schedMaxAux ((m + s) + 1) f hi (PoolEvent.spawn :: (List.replicate m PoolEvent.spawn ++ es))
        = schedMaxAux s (f + (m + 1)) (max hi (f + (m + 1))) es
      have hred : schedMaxAux ((m + s) + 1) f hi
          (PoolEvent.spawn :: (List.replicate m PoolEvent.spawn ++ es))
        = schedMaxAux (m + s) (f + 1) (max hi (f + 1))
            (List.replicate m PoolEvent.spawn ++ es) := rfl
      rw [hred, ih s (f + 1) (max hi (f + 1)) es (le_max_right hi (f + 1))]
      have h1 : f + 1 + m = f + (m + 1) := by omega
      have h2 : max (max hi (f + 1)) (f + (m + 1)) = max hi (f + (m + 1)) := by
        rw [max_assoc, max_eq_right (show f + 1 ≤ f + (m + 1) by omega)]
      rw [h1, h2]

lemma schedMaxAux_finishes (n hi : Nat) :
    schedMaxAux 0 n hi (List.replicate n PoolEvent.finish) = some hi := by
  induction n with
  | zero => simp [schedMaxAux]
  | succ m ih =>
      rw [List.replicate_succ]
      show schedMaxAux 0 m hi (List.replicate m PoolEvent.finish) = some hi
      exact ih

lemma burst_reaches (n : Nat) : schedMax n (burst n) = some n := by
  unfold schedMax burst
  have h := schedMaxAux_spawns n 0 0 0 (List.replicate n PoolEvent.finish) (Nat.le_refl 0)
  simp only [Nat.add_zero, Nat.zero_add, Nat.zero_max] at h
  rw [h]
  exact schedMaxAux_finishes n n

/-- Claim C8, amended: botstructconv.go has no worker-pool limit — it
    spawns one goroutine per decoded record and only waits for them after
    the source is exhausted, so for every source there is a consistent
    complete schedule in which all decoded records' pipelines are in
    flight at once: the concurrency high-water mark equals the number of
    decoded records and is bounded by no fixed constant. -/
theorem claim_C8_unbounded_concurrency (src : List (Except String OriginalBot)) :
    schedMax (spawnTotal src) (burst (spawnTotal src)) = some (spawnTotal src) :=
  burst_reaches (spawnTotal src)

/-- A source of one hundred successfully decoding records. -/
def src100 : List (Except String OriginalBot) :=
  List.replicate 100 (Except.ok (mkDoc "b1"))

/-- Counterexample to claim C8 as stated: with a hundred-record source and
    a supposed worker limit of 2, there is a consistent complete schedule
    whose in-flight high-water mark is 100, far above 2. -/
theorem claim_C8_counterexample :
    spawnTotal src100 = 100
    ∧ schedMax (spawnTotal src100) (burst (spawnTotal src100)) = some 100
    ∧ ¬ (100 ≤ 2) := by
  refine ⟨by decide, ?_, by decide⟩
  have h1 : spawnTotal src100 = 100 := by decide
  rw [h1]
  exact burst_reaches 100
